import Mathlib

/-!
Verification of the token lifecycle and credential-verification core of the
contacts-management auth service (src/services/auth.py).

The Python code is shallowly embedded:
* Python dicts of JWT claims become association lists (`Dict`) with the
  first-binding-wins lookup and in-place-replace `set`/`update` of CPython.
* The external jose JWT codec is idealized: a signed token carries its payload
  together with the signing key and algorithm; `jwt.decode` succeeds exactly
  when key and algorithm match and the `exp` claim (when present) is not in
  the past, and otherwise fails with the corresponding `JWTError` kind.
* `datetime.utcnow()` becomes an explicit `now : Nat` parameter (seconds).
* Raised exceptions become `Except` errors; `PyErr` distinguishes the
  deliberately raised `HTTPException`s from a raw Python `KeyError` caused by
  a `payload[...]` subscript on a missing claim (which `except JWTError`
  does not catch).
* Each issuance function also returns the caller's `data` dict as it stands
  after the call, so that the `data.copy()` in the source (updates go to the
  copy, never to the argument) is visible in the model.
-/

namespace AuthCore

/-- A claim value stored in a token payload: a string or an integral
timestamp in seconds since the epoch (the embedding of the datetime values
the source stores under iat and exp). -/
inductive JVal where
  | s (v : String)
  | t (v : Nat)
deriving DecidableEq, Repr

/-- A Python dict of claims: an association list whose first binding for a
key wins, as in CPython. -/
structure Dict where
  entries : List (String × JVal)
deriving DecidableEq, Repr

/-- Lookup of the first binding of a key, the embedding of both d[k] and
d.get(k) on the success path. -/
def getEntry : List (String × JVal) → String → Option JVal
  | [], _ => none
  | (k0, v0) :: rest, k => if k0 = k then some v0 else getEntry rest k

/-- d.get(k) / d[k]: first binding of k, none when absent. -/
def Dict.get (d : Dict) (k : String) : Option JVal :=
  getEntry d.entries k

/-- Replace the binding of a key in place, or append a fresh binding, the
per-key effect of CPython dict assignment. -/
def setEntry : List (String × JVal) → String → JVal → List (String × JVal)
  | [], k, v => [(k, v)]
  | (k0, v0) :: rest, k, v =>
    if k0 = k then (k0, v) :: rest else (k0, v0) :: setEntry rest k v

/-- d[k] = v. -/
def Dict.set (d : Dict) (k : String) (v : JVal) : Dict :=
  ⟨setEntry d.entries k v⟩

/-- d.update({...}): fold the new bindings over the dict, left to right. -/
def Dict.update (d : Dict) (kvs : List (String × JVal)) : Dict :=
  kvs.foldl (fun acc kv => acc.set kv.1 kv.2) d

/-- d.copy(): in the value semantics of the embedding a copy is the value
itself; the point in the source is that updates are applied to the copy and
never to the caller's dict. -/
def Dict.copy (d : Dict) : Dict := d

/-- A wire token as the idealized jose codec sees it: either a well-formed
signed token carrying its payload, signing key and algorithm, or a string
whose three-segment structure cannot be parsed at all (tampered or
truncated). -/
inductive Token where
  | signed (payload : Dict) (key : String) (alg : String)
  | malformed
deriving DecidableEq, Repr

/-- The payload a well-formed token carries (empty for a malformed one);
used only to state properties of issued tokens, which are always signed. -/
def Token.claims : Token → Dict
  | .signed p _ _ => p
  | .malformed => ⟨[]⟩

/-- The failure kinds of jose jwt.decode; every one is a subclass of
JWTError and is caught by the except JWTError handlers in the source.
signatureError also covers an algorithm not in the allowed list, and
claimsError a non-integral exp claim. -/
inductive JWTError where
  | signatureError
  | malformedToken
  | expiredSignature
  | claimsError
deriving DecidableEq, Repr

/-- jose jwt.encode: sign the claims with the key and algorithm. -/
def jwt.encode (claims : Dict) (key : String) (algorithm : String) : Token :=
  .signed claims key algorithm

/-- jose jwt.decode at wall-clock time now: verifies structure, signature
and algorithm, then the exp claim when present (expired when exp is in the
past, exp < now); on success returns the payload unchanged. -/
def jwt.decode (token : Token) (key : String) (algorithm : String) (now : Nat) :
    Except JWTError Dict :=
  match token with
  | .malformed => .error .malformedToken
  | .signed payload k a =>
    if k = key ∧ a = algorithm then
      match payload.get "exp" with
      | some (.t e) => if e < now then .error .expiredSignature else .ok payload
      | some (.s _) => .error .claimsError
      | none => .ok payload
    else .error .signatureError

/-- fastapi HTTPException, reduced to the status code and detail message the
source constructs. -/
structure HTTPException where
  status_code : Nat
  detail : String
deriving DecidableEq, Repr

/-- What an operation can raise: a deliberately constructed HTTPException,
or a raw Python KeyError from a d[k] subscript on a missing key — the
latter is not a JWTError and is not caught by the handlers in the source. -/
inductive PyErr where
  | http (e : HTTPException)
  | keyError (k : String)
deriving DecidableEq, Repr

/-- The process-wide signing configuration the Auth class reads from
settings at startup. -/
structure AuthConfig where
  secret_key : String
  algorithm : String
deriving DecidableEq, Repr

/-- The resolved user record owned by the external user store. -/
structure Principal where
  email : String
deriving DecidableEq, Repr

namespace Auth

/-- The single opaque error get_current_user raises on every failure path. -/
def credentials_exception : HTTPException :=
  ⟨401, "Could not validate credentials"⟩

/-- Python truthiness of the Optional[float] expires_delta argument: None
and 0 are falsy. -/
def pyTruthy : Option Nat → Bool
  | none => false
  | some d => decide (d ≠ 0)

/-- Auth.create_access_token: copy the caller's dict, compute the expiry
(caller's delta in seconds when truthy, else 15 minutes), stamp iat, exp
and scope = access_token on the copy, sign it. The second component is the
caller's data dict after the call: the update hits the copy, so it is the
argument unchanged. -/
def create_access_token (cfg : AuthConfig) (data : Dict) (expires_delta : Option Nat)
    (now : Nat) : Token × Dict :=
  let to_encode := data.copy
  let expire := if pyTruthy expires_delta then now + expires_delta.getD 0 else now + 15 * 60
  let stamped := to_encode.update
    [("iat", .t now), ("exp", .t expire), ("scope", .s "access_token")]
  (jwt.encode stamped cfg.secret_key cfg.algorithm, data)

/-- Auth.create_refresh_token: same shape, default lifetime 7 days, scope =
refresh_token. -/
def create_refresh_token (cfg : AuthConfig) (data : Dict) (expires_delta : Option Nat)
    (now : Nat) : Token × Dict :=
  let to_encode := data.copy
  let expire := if pyTruthy expires_delta then now + expires_delta.getD 0 else now + 7 * 24 * 60 * 60
  let stamped := to_encode.update
    [("iat", .t now), ("exp", .t expire), ("scope", .s "refresh_token")]
  (jwt.encode stamped cfg.secret_key cfg.algorithm, data)

/-- Auth.create_email_token: no expires_delta parameter exists; the expiry
is always 7 days, scope = email_token. -/
def create_email_token (cfg : AuthConfig) (data : Dict) (now : Nat) : Token × Dict :=
  let to_encode := data.copy
  let expire := now + 7 * 24 * 60 * 60
  let stamped := to_encode.update
    [("iat", .t now), ("exp", .t expire), ("scope", .s "email_token")]
  (jwt.encode stamped cfg.secret_key cfg.algorithm, data)

/-- Auth.get_current_user: decode the bearer token, require scope ==
access_token and a sub claim (both read with dict.get, so no KeyError is
possible), then look the email up in the external user store; every failure
path raises the one opaque credentials_exception. -/
def get_current_user (cfg : AuthConfig) (token : Token) (now : Nat)
    (get_user_by_email : JVal → Option Principal) : Except PyErr Principal :=
  match jwt.decode token cfg.secret_key cfg.algorithm now with
  | .error _ => .error (.http credentials_exception)
  | .ok payload =>
    if payload.get "scope" = some (.s "access_token") then
      match payload.get "sub" with
      | none => .error (.http credentials_exception)
      | some email =>
        match get_user_by_email email with
        | none => .error (.http credentials_exception)
        | some user => .ok user
    else .error (.http credentials_exception)

/-- Auth.decode_refresh_token: decode, then read payload[scope] and
payload[sub] by subscript — a missing key there raises a raw KeyError that
the except JWTError handler does not catch. -/
def decode_refresh_token (cfg : AuthConfig) (refresh_token : Token) (now : Nat) :
    Except PyErr JVal :=
  match jwt.decode refresh_token cfg.secret_key cfg.algorithm now with
  | .error _ => .error (.http ⟨401, "Could not validate credentials"⟩)
  | .ok payload =>
    match payload.get "scope" with
    | none => .error (.keyError "scope")
    | some sc =>
      if sc = .s "refresh_token" then
        match payload.get "sub" with
        | none => .error (.keyError "sub")
        | some email => .ok email
      else .error (.http ⟨401, "Invalid scope for token"⟩)

/-- Auth.get_email_from_token: same subscript reads as
decode_refresh_token; a JWTError is translated to 422 Unprocessable, a
scope mismatch to 401. -/
def get_email_from_token (cfg : AuthConfig) (token : Token) (now : Nat) :
    Except PyErr JVal :=
  match jwt.decode token cfg.secret_key cfg.algorithm now with
  | .error _ => .error (.http ⟨422, "Invalid token for email verification"⟩)
  | .ok payload =>
    match payload.get "scope" with
    | none => .error (.keyError "scope")
    | some sc =>
      if sc = .s "email_token" then
        match payload.get "sub" with
        | none => .error (.keyError "sub")
        | some email => .ok email
      else .error (.http ⟨401, "Invalid scope for token"⟩)

/-- The external passlib bcrypt hasher, idealized: the digest is an
injective keyed function of the salt and the password. -/
def bcryptDigest (salt : Nat) (password : String) : Nat × String :=
  (salt, password)

/-- A stored password hash: the embedded salt and the digest. -/
structure PasswordHash where
  salt : Nat
  digest : Nat × String
deriving DecidableEq, Repr

/-- Auth.get_password_hash: pwd_context.hash draws a fresh salt (made an
explicit argument here) and embeds it in the hash next to the digest. -/
def get_password_hash (salt : Nat) (password : String) : PasswordHash :=
  ⟨salt, bcryptDigest salt password⟩

/-- Auth.verify_password: pwd_context.verify re-derives the digest from the
candidate password and the salt embedded in the stored hash and compares;
returns a Bool, never raises, on a well-formed stored hash. -/
def verify_password (plain_password : String) (hashed_password : PasswordHash) : Bool :=
  bcryptDigest hashed_password.salt plain_password == hashed_password.digest

end Auth

/-- A concrete signing configuration for concrete evaluations. -/
def cfg0 : AuthConfig := ⟨"k", "HS256"⟩

/-- A validly signed token whose scope is access_token, for concrete
evaluations of the scope checks. -/
def scopeBad : Token :=
  .signed ⟨[("scope", .s "access_token"), ("sub", .s "a@b.com")]⟩ "k" "HS256"

/-- A validly signed token with no scope claim at all, for the KeyError
escape in decode_refresh_token and get_email_from_token. -/
def noScopeTok : Token :=
  .signed ⟨[("sub", .s "a@b.com")]⟩ "k" "HS256"

/-- A validly signed refresh-scoped token, for presenting a refresh token
to get_current_user. -/
def refreshTok : Token :=
  .signed ⟨[("scope", .s "refresh_token"), ("sub", .s "a@b.com")]⟩ "k" "HS256"

/-- A validly signed access-scoped token with no sub claim, for the
missing-subject path of get_current_user. -/
def noSubTok : Token :=
  .signed ⟨[("scope", .s "access_token")]⟩ "k" "HS256"

/-- A validly signed email-scoped token with no sub claim, for the
KeyError on sub in get_email_from_token. -/
def noSubEmailTok : Token :=
  .signed ⟨[("scope", .s "email_token")]⟩ "k" "HS256"

/-! ## Dict lemmas -/

theorem getEntry_set_same (l : List (String × JVal)) (k : String) (v : JVal) :
    getEntry (setEntry l k v) k = some v := by
  induction l with
  | nil => simp [setEntry, getEntry]
  | cons hd tl ih =>
    obtain ⟨k0, v0⟩ := hd
    by_cases h : k0 = k
    · simp [setEntry, getEntry, h]
    · simp [setEntry, getEntry, h, ih]

theorem getEntry_set_ne (l : List (String × JVal)) (k k' : String) (v : JVal)
    (h : k ≠ k') : getEntry (setEntry l k v) k' = getEntry l k' := by
  induction l with
  | nil => simp [setEntry, getEntry, h]
  | cons hd tl ih =>
    obtain ⟨k0, v0⟩ := hd
    by_cases h0 : k0 = k
    · subst h0
      simp [setEntry, getEntry, h]
    · simp [setEntry, getEntry, h0, ih]

theorem Dict.get_set_same (d : Dict) (k : String) (v : JVal) :
    (d.set k v).get k = some v :=
  getEntry_set_same d.entries k v

theorem Dict.get_set_ne (d : Dict) (k k' : String) (v : JVal) (h : k ≠ k') :
    (d.set k v).get k' = d.get k' :=
  getEntry_set_ne d.entries k k' v h

theorem update3_eq (d : Dict) (k1 k2 k3 : String) (v1 v2 v3 : JVal) :
    d.update [(k1, v1), (k2, v2), (k3, v3)] = ((d.set k1 v1).set k2 v2).set k3 v3 :=
  rfl

theorem update3_get_iat (d : Dict) (a b c : JVal) :
    (d.update [("iat", a), ("exp", b), ("scope", c)]).get "iat" = some a := by
  rw [update3_eq, Dict.get_set_ne _ _ _ _ (by decide),
    Dict.get_set_ne _ _ _ _ (by decide), Dict.get_set_same]

theorem update3_get_exp (d : Dict) (a b c : JVal) :
    (d.update [("iat", a), ("exp", b), ("scope", c)]).get "exp" = some b := by
  rw [update3_eq, Dict.get_set_ne _ _ _ _ (by decide), Dict.get_set_same]

theorem update3_get_scope (d : Dict) (a b c : JVal) :
    (d.update [("iat", a), ("exp", b), ("scope", c)]).get "scope" = some c := by
  rw [update3_eq, Dict.get_set_same]

/-! ## Codec and issuance lemmas -/

theorem decode_encode (claims : Dict) (key alg : String) (now : Nat) :
    jwt.decode (jwt.encode claims key alg) key alg now =
      match claims.get "exp" with
      | some (.t e) => if e < now then .error .expiredSignature else .ok claims
      | some (.s _) => .error .claimsError
      | none => .ok claims := by
  simp [jwt.decode, jwt.encode]

theorem access_token_claims (cfg : AuthConfig) (data : Dict) (ed : Option Nat) (now : Nat) :
    (Auth.create_access_token cfg data ed now).1.claims =
      data.update [("iat", .t now),
        ("exp", .t (if Auth.pyTruthy ed then now + ed.getD 0 else now + 15 * 60)),
        ("scope", .s "access_token")] :=
  rfl

theorem refresh_token_claims (cfg : AuthConfig) (data : Dict) (ed : Option Nat) (now : Nat) :
    (Auth.create_refresh_token cfg data ed now).1.claims =
      data.update [("iat", .t now),
        ("exp", .t (if Auth.pyTruthy ed then now + ed.getD 0 else now + 7 * 24 * 60 * 60)),
        ("scope", .s "refresh_token")] :=
  rfl

theorem email_token_claims (cfg : AuthConfig) (data : Dict) (now : Nat) :
    (Auth.create_email_token cfg data now).1.claims =
      data.update [("iat", .t now), ("exp", .t (now + 7 * 24 * 60 * 60)),
        ("scope", .s "email_token")] :=
  rfl

theorem access_token_encodes (cfg : AuthConfig) (data : Dict) (ed : Option Nat) (now : Nat) :
    (Auth.create_access_token cfg data ed now).1 =
      jwt.encode ((Auth.create_access_token cfg data ed now).1.claims)
        cfg.secret_key cfg.algorithm :=
  rfl

theorem rejected_by_refresh (cfg : AuthConfig) (st : Dict) (now2 e : Nat) (sc : String)
    (hexp : st.get "exp" = some (.t e)) (hsc : st.get "scope" = some (.s sc))
    (hne : sc ≠ "refresh_token") (v : JVal) :
    Auth.decode_refresh_token cfg (jwt.encode st cfg.secret_key cfg.algorithm) now2 ≠ .ok v := by
  unfold Auth.decode_refresh_token
  rw [decode_encode, hexp]
  by_cases hlt : e < now2
  · simp [hlt]
  · simp [hlt, hsc, hne]

theorem rejected_by_email (cfg : AuthConfig) (st : Dict) (now2 e : Nat) (sc : String)
    (hexp : st.get "exp" = some (.t e)) (hsc : st.get "scope" = some (.s sc))
    (hne : sc ≠ "email_token") (v : JVal) :
    Auth.get_email_from_token cfg (jwt.encode st cfg.secret_key cfg.algorithm) now2 ≠ .ok v := by
  unfold Auth.get_email_from_token
  rw [decode_encode, hexp]
  by_cases hlt : e < now2
  · simp [hlt]
  · simp [hlt, hsc, hne]

theorem gcu_error_eq (cfg : AuthConfig) (tok : Token) (now : Nat)
    (lookup : JVal → Option Principal) (e : PyErr)
    (h : Auth.get_current_user cfg tok now lookup = .error e) :
    e = .http Auth.credentials_exception := by
  unfold Auth.get_current_user at h
  repeat' split at h
  all_goals simp_all

/-! ## Claims -/

/-- C1: get_current_user fails in each of the failure cases — decode
failure (invalid signature, malformed structure, expired), wrong scope,
missing subject, or user lookup returning not-found — and every failure is
the one opaque 401 with detail "Could not validate credentials", so the
caller cannot tell the causes apart. -/
theorem c1 :
    (∀ (cfg : AuthConfig) (tok : Token) (now : Nat)
        (lookup : JVal → Option Principal) (e : PyErr),
        Auth.get_current_user cfg tok now lookup = .error e →
        e = .http Auth.credentials_exception)
    ∧ (∀ (cfg : AuthConfig) (tok : Token) (now : Nat)
        (lookup : JVal → Option Principal) (je : JWTError),
        jwt.decode tok cfg.secret_key cfg.algorithm now = .error je →
        Auth.get_current_user cfg tok now lookup =
          .error (.http Auth.credentials_exception))
    ∧ (∀ (cfg : AuthConfig) (tok : Token) (now : Nat)
        (lookup : JVal → Option Principal) (payload : Dict),
        jwt.decode tok cfg.secret_key cfg.algorithm now = .ok payload →
        payload.get "scope" ≠ some (.s "access_token") →
        Auth.get_current_user cfg tok now lookup =
          .error (.http Auth.credentials_exception))
    ∧ (∀ (cfg : AuthConfig) (tok : Token) (now : Nat)
        (lookup : JVal → Option Principal) (payload : Dict),
        jwt.decode tok cfg.secret_key cfg.algorithm now = .ok payload →
        payload.get "scope" = some (.s "access_token") →
        payload.get "sub" = none →
        Auth.get_current_user cfg tok now lookup =
          .error (.http Auth.credentials_exception))
    ∧ (∀ (cfg : AuthConfig) (tok : Token) (now : Nat)
        (lookup : JVal → Option Principal) (payload : Dict) (email : JVal),
        jwt.decode tok cfg.secret_key cfg.algorithm now = .ok payload →
        payload.get "scope" = some (.s "access_token") →
        payload.get "sub" = some email →
        lookup email = none →
        Auth.get_current_user cfg tok now lookup =
          .error (.http Auth.credentials_exception)) := by
  refine ⟨?_, ?_, ?_, ?_, ?_⟩
  · intro cfg tok now lookup e h
    exact gcu_error_eq cfg tok now lookup e h
  · intro cfg tok now lookup je hdec
    unfold Auth.get_current_user
    rw [hdec]
  · intro cfg tok now lookup payload hdec hsc
    unfold Auth.get_current_user
    rw [hdec]
    simp [hsc]
  · intro cfg tok now lookup payload hdec hsc hsub
    unfold Auth.get_current_user
    rw [hdec]
    simp [hsc, hsub]
  · intro cfg tok now lookup payload email hdec hsc hsub hlook
    unfold Auth.get_current_user
    rw [hdec]
    simp [hsc, hsub, hlook]

theorem c1_witness :
    PyErr.http ⟨401, "Could not validate credentials"⟩ = .http Auth.credentials_exception
    ∧ Auth.get_current_user cfg0 Token.malformed 0 (fun _ => none) =
        .error (.http Auth.credentials_exception)
    ∧ Auth.get_current_user cfg0 refreshTok 0 (fun _ => none) =
        .error (.http Auth.credentials_exception)
    ∧ Auth.get_current_user cfg0 noSubTok 0 (fun _ => none) =
        .error (.http Auth.credentials_exception)
    ∧ Auth.get_current_user cfg0 scopeBad 0 (fun _ => none) =
        .error (.http Auth.credentials_exception) :=
  ⟨c1.1 cfg0 Token.malformed 0 (fun _ => none)
      (PyErr.http ⟨401, "Could not validate credentials"⟩) rfl,
    c1.2.1 cfg0 Token.malformed 0 (fun _ => none) .malformedToken rfl,
    c1.2.2.1 cfg0 refreshTok 0 (fun _ => none)
      ⟨[("scope", .s "refresh_token"), ("sub", .s "a@b.com")]⟩ rfl (by decide),
    c1.2.2.2.1 cfg0 noSubTok 0 (fun _ => none)
      ⟨[("scope", .s "access_token")]⟩ rfl rfl rfl,
    c1.2.2.2.2 cfg0 scopeBad 0 (fun _ => none)
      ⟨[("scope", .s "access_token"), ("sub", .s "a@b.com")]⟩ (.s "a@b.com")
      rfl rfl rfl rfl⟩

/-- C2: a token issued by create_access_token (scope access_token) is never
accepted by decode_refresh_token nor by get_email_from_token: neither ever
returns an email for it, at any decode time. -/
theorem c2 : ∀ (cfg : AuthConfig) (data : Dict) (ed : Option Nat) (now now2 : Nat) (v : JVal),
    Auth.decode_refresh_token cfg (Auth.create_access_token cfg data ed now).1 now2 ≠ .ok v
    ∧ Auth.get_email_from_token cfg (Auth.create_access_token cfg data ed now).1 now2 ≠ .ok v := by
  intro cfg data ed now now2 v
  constructor
  · rw [access_token_encodes]
    exact rejected_by_refresh cfg _ now2
      (if Auth.pyTruthy ed then now + ed.getD 0 else now + 15 * 60) "access_token"
      (by rw [access_token_claims, update3_get_exp])
      (by rw [access_token_claims, update3_get_scope]) (by decide) v
  · rw [access_token_encodes]
    exact rejected_by_email cfg _ now2
      (if Auth.pyTruthy ed then now + ed.getD 0 else now + 15 * 60) "access_token"
      (by rw [access_token_claims, update3_get_exp])
      (by rw [access_token_claims, update3_get_scope]) (by decide) v

theorem c2_witness :
    Auth.decode_refresh_token cfg0 (Auth.create_access_token cfg0 ⟨[]⟩ none 0).1 5 ≠
      .ok (JVal.s "a@b.com")
    ∧ Auth.get_email_from_token cfg0 (Auth.create_access_token cfg0 ⟨[]⟩ none 0).1 5 ≠
      .ok (JVal.s "a@b.com") :=
  ⟨(c2 cfg0 ⟨[]⟩ none 0 5 (JVal.s "a@b.com")).1,
    (c2 cfg0 ⟨[]⟩ none 0 5 (JVal.s "a@b.com")).2⟩

/-- C6: decoding the token produced by encode, with the same key and
algorithm, strictly before its exp, returns the original claims
unchanged. -/
theorem c6 (claims : Dict) (key alg : String) (now e : Nat)
    (hexp : claims.get "exp" = some (.t e)) (hlt : now < e) :
    jwt.decode (jwt.encode claims key alg) key alg now = .ok claims := by
  rw [decode_encode, hexp]
  simp [Nat.lt_asymm hlt]

theorem c6_witness :
    jwt.decode (jwt.encode ⟨[("sub", JVal.s "a@b.com"), ("exp", JVal.t 10)]⟩ "k" "HS256")
        "k" "HS256" 5 =
      .ok ⟨[("sub", JVal.s "a@b.com"), ("exp", JVal.t 10)]⟩ :=
  c6 ⟨[("sub", JVal.s "a@b.com"), ("exp", JVal.t 10)]⟩ "k" "HS256" 5 10 (by decide) (by decide)

/-- C7: every issuance stamps iat = now and scope = the operation's fixed
kind tag, whatever dict the caller supplied. -/
theorem c7 : ∀ (cfg : AuthConfig) (data : Dict) (ed : Option Nat) (now : Nat),
    ((Auth.create_access_token cfg data ed now).1.claims.get "iat" = some (.t now)
      ∧ (Auth.create_access_token cfg data ed now).1.claims.get "scope" =
          some (.s "access_token"))
    ∧ ((Auth.create_refresh_token cfg data ed now).1.claims.get "iat" = some (.t now)
      ∧ (Auth.create_refresh_token cfg data ed now).1.claims.get "scope" =
          some (.s "refresh_token"))
    ∧ ((Auth.create_email_token cfg data now).1.claims.get "iat" = some (.t now)
      ∧ (Auth.create_email_token cfg data now).1.claims.get "scope" =
          some (.s "email_token")) := by
  intro cfg data ed now
  refine ⟨⟨?_, ?_⟩, ⟨?_, ?_⟩, ⟨?_, ?_⟩⟩
  · rw [access_token_claims, update3_get_iat]
  · rw [access_token_claims, update3_get_scope]
  · rw [refresh_token_claims, update3_get_iat]
  · rw [refresh_token_claims, update3_get_scope]
  · rw [email_token_claims, update3_get_iat]
  · rw [email_token_claims, update3_get_scope]

/-- C9: expires_delta = 0 is falsy, so the override is skipped and the
token gets the default lifetime (15 minutes for access, 7 days for
refresh), not an immediately expired one. -/
theorem c9 : ∀ (cfg : AuthConfig) (data : Dict) (now : Nat),
    (Auth.create_access_token cfg data (some 0) now).1.claims.get "exp" =
      some (.t (now + 15 * 60))
    ∧ (Auth.create_refresh_token cfg data (some 0) now).1.claims.get "exp" =
      some (.t (now + 7 * 24 * 60 * 60)) := by
  intro cfg data now
  constructor
  · rw [access_token_claims, update3_get_exp]
    simp [Auth.pyTruthy]
  · rw [refresh_token_claims, update3_get_exp]
    simp [Auth.pyTruthy]

/-- C10: no issuance call mutates the caller's data dict (the update is
applied to a copy, so the caller's dict after the call is the argument
unchanged), and any iat, exp or scope entries the caller supplied are
overwritten by the stamped values in the issued token. -/
theorem c10 : ∀ (cfg : AuthConfig) (data : Dict) (ed : Option Nat) (now : Nat),
    ((Auth.create_access_token cfg data ed now).2 = data
      ∧ (Auth.create_refresh_token cfg data ed now).2 = data
      ∧ (Auth.create_email_token cfg data now).2 = data)
    ∧ ((Auth.create_access_token cfg data ed now).1.claims.get "iat" = some (.t now)
      ∧ (Auth.create_access_token cfg data ed now).1.claims.get "exp" =
          some (.t (if Auth.pyTruthy ed then now + ed.getD 0 else now + 15 * 60))
      ∧ (Auth.create_access_token cfg data ed now).1.claims.get "scope" =
          some (.s "access_token"))
    ∧ ((Auth.create_refresh_token cfg data ed now).1.claims.get "iat" = some (.t now)
      ∧ (Auth.create_refresh_token cfg data ed now).1.claims.get "exp" =
          some (.t (if Auth.pyTruthy ed then now + ed.getD 0 else now + 7 * 24 * 60 * 60))
      ∧ (Auth.create_refresh_token cfg data ed now).1.claims.get "scope" =
          some (.s "refresh_token"))
    ∧ ((Auth.create_email_token cfg data now).1.claims.get "iat" = some (.t now)
      ∧ (Auth.create_email_token cfg data now).1.claims.get "exp" =
          some (.t (now + 7 * 24 * 60 * 60))
      ∧ (Auth.create_email_token cfg data now).1.claims.get "scope" =
          some (.s "email_token")) := by
  intro cfg data ed now
  refine ⟨⟨rfl, rfl, rfl⟩, ⟨?_, ?_, ?_⟩, ⟨?_, ?_, ?_⟩, ⟨?_, ?_, ?_⟩⟩
  · rw [access_token_claims, update3_get_iat]
  · rw [access_token_claims, update3_get_exp]
  · rw [access_token_claims, update3_get_scope]
  · rw [refresh_token_claims, update3_get_iat]
  · rw [refresh_token_claims, update3_get_exp]
  · rw [refresh_token_claims, update3_get_scope]
  · rw [email_token_claims, update3_get_iat]
  · rw [email_token_claims, update3_get_exp]
  · rw [email_token_claims, update3_get_scope]

/-- C3: when the token decodes and carries a scope that is not email_token,
get_email_from_token fails with 401 "Invalid scope for token"; when the
signature or structure is invalid (decode fails), it fails with the
distinct 422 kind, not 401. -/
theorem c3 :
    (∀ (cfg : AuthConfig) (tok : Token) (now : Nat) (payload : Dict) (sc : JVal),
        jwt.decode tok cfg.secret_key cfg.algorithm now = .ok payload →
        payload.get "scope" = some sc → sc ≠ .s "email_token" →
        Auth.get_email_from_token cfg tok now =
          .error (.http ⟨401, "Invalid scope for token"⟩))
    ∧ (∀ (cfg : AuthConfig) (tok : Token) (now : Nat) (je : JWTError),
        jwt.decode tok cfg.secret_key cfg.algorithm now = .error je →
        Auth.get_email_from_token cfg tok now =
          .error (.http ⟨422, "Invalid token for email verification"⟩)) := by
  constructor
  · intro cfg tok now payload sc hdec hsc hne
    unfold Auth.get_email_from_token
    rw [hdec]
    simp [hsc, hne]
  · intro cfg tok now je hdec
    unfold Auth.get_email_from_token
    rw [hdec]

theorem c3_witness :
    Auth.get_email_from_token cfg0 scopeBad 0 = .error (.http ⟨401, "Invalid scope for token"⟩)
    ∧ Auth.get_email_from_token cfg0 Token.malformed 0 =
      .error (.http ⟨422, "Invalid token for email verification"⟩) :=
  ⟨c3.1 cfg0 scopeBad 0 ⟨[("scope", .s "access_token"), ("sub", .s "a@b.com")]⟩
      (.s "access_token") rfl rfl (by decide),
    c3.2 cfg0 Token.malformed 0 .malformedToken rfl⟩

/-- C4 as stated fails: supplying the explicit duration 0 does not give
exp = now + 0; the falsy check sends it to the 15-minute default. -/
theorem c4_counterexample :
    (Auth.create_access_token cfg0 ⟨[]⟩ (some 0) 100).1.claims.get "exp" =
      some (JVal.t 1000)
    ∧ JVal.t 1000 ≠ JVal.t (100 + 0) := by
  constructor
  · rfl
  · decide

/-- C4 amended: default lifetimes are 15 minutes (access) and 7 days
(refresh and email); for access and refresh tokens a nonzero
caller-supplied duration d overrides the default, giving exp = now + d;
create_email_token exposes no duration parameter, so an email token's
lifetime is always 7 days. -/
theorem c4_amended :
    (∀ (cfg : AuthConfig) (data : Dict) (now : Nat),
        (Auth.create_access_token cfg data none now).1.claims.get "exp" =
          some (.t (now + 15 * 60)))
    ∧ (∀ (cfg : AuthConfig) (data : Dict) (now d : Nat), d ≠ 0 →
        (Auth.create_access_token cfg data (some d) now).1.claims.get "exp" =
          some (.t (now + d)))
    ∧ (∀ (cfg : AuthConfig) (data : Dict) (now : Nat),
        (Auth.create_refresh_token cfg data none now).1.claims.get "exp" =
          some (.t (now + 7 * 24 * 60 * 60)))
    ∧ (∀ (cfg : AuthConfig) (data : Dict) (now d : Nat), d ≠ 0 →
        (Auth.create_refresh_token cfg data (some d) now).1.claims.get "exp" =
          some (.t (now + d)))
    ∧ (∀ (cfg : AuthConfig) (data : Dict) (now : Nat),
        (Auth.create_email_token cfg data now).1.claims.get "exp" =
          some (.t (now + 7 * 24 * 60 * 60))) := by
  refine ⟨?_, ?_, ?_, ?_, ?_⟩
  · intro cfg data now
    rw [access_token_claims, update3_get_exp]
    simp [Auth.pyTruthy]
  · intro cfg data now d hd
    rw [access_token_claims, update3_get_exp]
    simp [Auth.pyTruthy, hd]
  · intro cfg data now
    rw [refresh_token_claims, update3_get_exp]
    simp [Auth.pyTruthy]
  · intro cfg data now d hd
    rw [refresh_token_claims, update3_get_exp]
    simp [Auth.pyTruthy, hd]
  · intro cfg data now
    rw [email_token_claims, update3_get_exp]

theorem c4_witness :
    (Auth.create_access_token cfg0 ⟨[]⟩ (some 30) 100).1.claims.get "exp" =
      some (JVal.t (100 + 30))
    ∧ (Auth.create_refresh_token cfg0 ⟨[]⟩ (some 30) 100).1.claims.get "exp" =
      some (JVal.t (100 + 30)) :=
  ⟨c4_amended.2.1 cfg0 ⟨[]⟩ 100 30 (by decide),
    c4_amended.2.2.2.1 cfg0 ⟨[]⟩ 100 30 (by decide)⟩

/-- C5 as stated fails: a validly signed token with no scope claim makes
payload[scope] raise a raw KeyError that escapes decode_refresh_token (and
get_email_from_token) untranslated — it is neither of the taxonomy errors
those operations construct. -/
theorem c5_counterexample :
    Auth.decode_refresh_token cfg0 noScopeTok 0 = .error (.keyError "scope")
    ∧ Auth.get_email_from_token cfg0 noScopeTok 0 = .error (.keyError "scope")
    ∧ PyErr.keyError "scope" ≠ .http ⟨401, "Invalid scope for token"⟩
    ∧ PyErr.keyError "scope" ≠ .http ⟨401, "Could not validate credentials"⟩
    ∧ PyErr.keyError "scope" ≠ .http ⟨422, "Invalid token for email verification"⟩ := by
  refine ⟨rfl, rfl, ?_, ?_, ?_⟩ <;> decide

/-- C5 amended: get_current_user translates every failure into the
taxonomy (it only ever raises an HTTPException); decode_refresh_token and
get_email_from_token translate every JWT decode/verify failure into their
taxonomy kinds, but a subscript on a missing scope claim (or a missing sub
claim under the correct scope) in a validly signed token escapes as a raw
KeyError, and those are the only raw escapes. -/
theorem c5_amended :
    (∀ (cfg : AuthConfig) (tok : Token) (now : Nat)
        (lookup : JVal → Option Principal) (e : PyErr),
        Auth.get_current_user cfg tok now lookup = .error e → ∃ he, e = .http he)
    ∧ (∀ (cfg : AuthConfig) (tok : Token) (now : Nat) (je : JWTError),
        jwt.decode tok cfg.secret_key cfg.algorithm now = .error je →
        Auth.decode_refresh_token cfg tok now =
            .error (.http ⟨401, "Could not validate credentials"⟩)
          ∧ Auth.get_email_from_token cfg tok now =
            .error (.http ⟨422, "Invalid token for email verification"⟩))
    ∧ (∀ (cfg : AuthConfig) (tok : Token) (now : Nat) (k : String),
        Auth.decode_refresh_token cfg tok now = .error (.keyError k) →
        k = "scope" ∨ k = "sub")
    ∧ (∀ (cfg : AuthConfig) (tok : Token) (now : Nat) (k : String),
        Auth.get_email_from_token cfg tok now = .error (.keyError k) →
        k = "scope" ∨ k = "sub") := by
  refine ⟨?_, ?_, ?_, ?_⟩
  · intro cfg tok now lookup e h
    exact ⟨Auth.credentials_exception, gcu_error_eq cfg tok now lookup e h⟩
  · intro cfg tok now je hdec
    constructor
    · unfold Auth.decode_refresh_token
      rw [hdec]
    · unfold Auth.get_email_from_token
      rw [hdec]
  · intro cfg tok now k h
    unfold Auth.decode_refresh_token at h
    repeat' split at h
    all_goals simp_all
  · intro cfg tok now k h
    unfold Auth.get_email_from_token at h
    repeat' split at h
    all_goals simp_all

theorem c5_witness :
    (∃ he, PyErr.http ⟨401, "Could not validate credentials"⟩ = PyErr.http he)
    ∧ Auth.decode_refresh_token cfg0 Token.malformed 3 =
        .error (.http ⟨401, "Could not validate credentials"⟩)
    ∧ ("scope" = "scope" ∨ "scope" = "sub")
    ∧ ("sub" = "scope" ∨ "sub" = "sub") :=
  ⟨c5_amended.1 cfg0 Token.malformed 3 (fun _ => none)
      (PyErr.http ⟨401, "Could not validate credentials"⟩) rfl,
    (c5_amended.2.1 cfg0 Token.malformed 3 .malformedToken rfl).1,
    c5_amended.2.2.1 cfg0 noScopeTok 0 "scope" rfl,
    c5_amended.2.2.2 cfg0 noSubEmailTok 0 "sub" rfl⟩

/-- C8: the credential hasher round-trips — verifying a secret against its
own hash succeeds, and verifying any other secret against that hash
returns false rather than raising. -/
theorem c8 :
    (∀ (salt : Nat) (s : String),
        Auth.verify_password s (Auth.get_password_hash salt s) = true)
    ∧ (∀ (salt : Nat) (s1 s2 : String), s1 ≠ s2 →
        Auth.verify_password s1 (Auth.get_password_hash salt s2) = false) := by
  constructor
  · intro salt s
    simp [Auth.verify_password, Auth.get_password_hash, Auth.bcryptDigest]
  · intro salt s1 s2 h
    simp [Auth.verify_password, Auth.get_password_hash, Auth.bcryptDigest, h]

theorem c8_witness :
    Auth.verify_password "p@ss1234" (Auth.get_password_hash 7 "p@ss1234") = true
    ∧ Auth.verify_password "wrong" (Auth.get_password_hash 7 "p@ss1234") = false :=
  ⟨c8.1 7 "p@ss1234", c8.2 7 "wrong" "p@ss1234" (by decide)⟩

end AuthCore
